import Mathlib

/-!
Verification of the mood-tracker application's classification and
hint-selection logic, embedded shallowly from `src/simple_mood_app.py`.

Conventions of the embedding:
* Python strings are Lean `String`s; Python's substring test `w in s` is
  `strContains s w` (character-level infix test), and `str.lower()` is
  `String.toLower`.
* Python integers are Lean `Int`.
* Calendar dates handled with `timedelta(days=1)` arithmetic are modelled as
  `Int` day numbers (days since an arbitrary epoch); dates stored as
  `'YYYY-MM-DD'` strings in the database layer are modelled as `String`s.
* External effects (the OpenAI HTTP call, the Supabase table) are made
  explicit: the HTTP outcome is a `ProviderResult` parameter and the table is
  a `List SupabaseRow` threaded through the function.
-/

set_option maxRecDepth 4000

/-- Tests whether `pat` occurs as a contiguous sublist of the second
argument. -/
def containsSublist (pat : List Char) : List Char → Bool
  | [] => pat.isPrefixOf []
  | c :: rest => pat.isPrefixOf (c :: rest) || containsSublist pat rest

/-- Python's substring test `pat in s`, at character level.  `pat = ""` is
always contained, as in Python. -/
def strContains (s pat : String) : Bool :=
  containsSublist pat.toList s.toList

/-- Python's `str.lower()`, stated directly over the character list (the same
character-wise mapping as `String.toLower`, in a form that reduces). -/
def strToLower (s : String) : String :=
  ⟨s.data.map Char.toLower⟩

/-- First static hint text of `get_helpful_hint` (the grounding message for
low scores / anxiety keywords), verbatim from the source. -/
def grounding_message : String :=
  "When everything feels heavy, start with the smallest possible anchor. " ++
  "Try one minute of slow breathing, counting 4-in and 6-out. " ++
  "Look around and name a few things you can see or touch. " ++
  "If distress continues, consider reaching out to someone you trust or a helpline. " ++
  "For now, choose one tiny actionâ€”roll your shoulders, sip water, or step outside."

/-- Second static hint text of `get_helpful_hint` (the momentum message for
middling scores / low-energy keywords), verbatim from the source. -/
def momentum_message : String :=
  "When energy is low, momentum comes from tiny wins. " ++
  "Pick a 5-minute task you can complete nowâ€”tidy one surface, stretch, or put on music. " ++
  "Consider a short walk or write about one thing you care about this week. " ++
  "Text a friend a simple check-in. Thank yourself for showing up today. " ++
  "Choose your next tiny action and commit to just two minutes."

/-- Third static hint text of `get_helpful_hint` (the positive-energy
message), verbatim from the source. -/
def positive_message : String :=
  "Great to see some positive energy! Savor this good moment for 20 seconds. " ++
  "Consider sharing this energy with someoneâ€”send a kind note or plan something you enjoy. " ++
  "Capture one doable plan for later so the momentum has somewhere to go. " ++
  "Mark this win in your memoryâ€”small joys add up over time."

/-- The anxiety keyword list scanned by the first branch of
`get_helpful_hint`. -/
def anxiety_keywords : List String := ["overwhelmed", "anxious", "panic", "fear"]

/-- The low-energy keyword list scanned by the second branch of
`get_helpful_hint`. -/
def low_energy_keywords : List String := ["stuck", "flat", "empty", "numb"]

/-- Embedding of `get_helpful_hint(score, note_text="")`
(src/simple_mood_app.py lines 533-559).  Python's `(note_text or "").lower()`
is `note_text.toLower` (a `None` note is modelled as `""`). -/
def get_helpful_hint (score : Int) (note_text : String) : String :=
  let note_lower := strToLower note_text
  if score ≤ 3 || anxiety_keywords.any (fun word => strContains note_lower word) then
    grounding_message
  else if score ≤ 5 || low_energy_keywords.any (fun word => strContains note_lower word) then
    momentum_message
  else
    positive_message

/-- Embedding of `get_mood_info(mood_score)` (src/simple_mood_app.py lines
1157-1177).  The third returned component is the current theme's primary
color, obtained from `UIThemes.get_theme(st.session_state.current_theme)`;
it does not depend on `mood_score`, so the resolved color is passed in as the
parameter `theme_primary`. -/
def get_mood_info (mood_score : Int) (theme_primary : String) : String × String × String :=
  let el : String × String :=
    if mood_score ≤ 2 then ("ğŸ˜¢", "Very Low")
    else if mood_score ≤ 4 then ("ğŸ˜”", "Low")
    else if mood_score ≤ 6 then ("ğŸ˜", "Neutral")
    else if mood_score ≤ 8 then ("ğŸ˜Š", "Good")
    else ("ğŸ˜„", "Great")
  (el.1, el.2, theme_primary)

/-- Embedding of `get_mood_emoji_and_label(mood_score)`
(src/simple_mood_app.py lines 518-531), the earlier revision's six-bucket
classifier. -/
def get_mood_emoji_and_label (mood_score : Int) : String × String × String :=
  if mood_score ≤ 1 then ("ğŸ˜¢", "Very Low", "#1e40af")
  else if mood_score ≤ 3 then ("ğŸ˜”", "Low", "#2563eb")
  else if mood_score ≤ 4 then ("ğŸ˜", "Below Average", "#3b82f6")
  else if mood_score ≤ 6 then ("ğŸ™‚", "Okay", "#60a5fa")
  else if mood_score ≤ 8 then ("ğŸ˜Š", "Good", "#93c5fd")
  else ("ğŸ˜„", "Great", "#dbeafe")

/-- Outcome of the external OpenAI HTTP request issued by
`get_ai_suggestion` via `requests.post(..., timeout=30)`.  `response` is a
returned HTTP response carrying its status code and, for status 200, the
message content extracted from the response JSON; `failure` is any raised
exception (connection error, timeout, malformed JSON, ...), carrying the
exception's string rendering. -/
inductive ProviderResult where
  | response (status : Nat) (content : String)
  | failure (message : String)

/-- Embedding of the first revision's `get_ai_suggestion(mood_score,
note_text, api_key)` (src/simple_mood_app.py lines 561-604).  The network
interaction is made explicit through the `provider` parameter; the prompt
strings are built exactly as in the source (they flow only into the
request).  Python's `str(e)[:50]` is a 50-character take. -/
def get_ai_suggestion (mood_score : Int) (note_text : String) (api_key : String)
    (provider : ProviderResult) : String :=
  if api_key = "" then ""
  else
    let system_prompt :=
      if mood_score ≤ 2 then
        "You are a gentle, supportive counselor. Provide immediate emotional support with 3-4 sentences. Focus on comfort and small, manageable steps."
      else if mood_score ≤ 4 then
        "You are an encouraging coach. Provide gentle motivation with 3-4 sentences. Focus on small positive actions and building momentum."
      else if mood_score ≤ 6 then
        "You are an upbeat coach. Provide fun suggestions to boost mood with 3-4 sentences. Focus on enjoyable activities."
      else
        "You are an enthusiastic coach. Celebrate their positive state with 3-4 sentences. Focus on maintaining and sharing positivity."
    let user_prompt :=
      "Someone is feeling " ++ toString mood_score ++ "/10 today. " ++
      (if note_text ≠ "" then "They shared: " ++ note_text else "") ++
      " Please provide a supportive response."
    match provider with
    | .failure message =>
        "AI temporarily unavailable: " ++ String.mk (message.data.take 50) ++ "..."
    | .response status content =>
        if status = 200 then content.trim
        else "AI temporarily unavailable (Error " ++ toString status ++ ")"

/-- The check-in tab computes the two message columns side by side
(src/simple_mood_app.py lines 805 and 814): the helpful hint from
`get_helpful_hint(mood, note)` and the AI suggestion from
`get_ai_suggestion(mood, note, api_key)`. -/
def checkin_messages (mood : Int) (note : String) (api_key : String)
    (provider : ProviderResult) : String × String :=
  (get_helpful_hint mood note, get_ai_suggestion mood note api_key provider)

/-- The entry dictionary passed to `save_data_to_supabase` /
`DataManager.save_entry`.  The `date` field is modelled after conversion to
its `'YYYY-MM-DD'` string form (the source converts a `date` object with
`strftime` before use); `tags` is the serialized tag payload; `timestamp` is
present at every call site. -/
structure EntryData where
  date : String
  mood_score : Int
  note : String
  tags : String
  ai_suggestion : String
  helpful_hint : String
  timestamp : String
  deriving DecidableEq

/-- One row of the Supabase `mood_entries` table, with the columns written by
the application. -/
structure SupabaseRow where
  user_email : String
  date : String
  mood_score : Int
  note : String
  tags : String
  ai_suggestion : String
  helpful_hint : String
  timestamp : String
  deriving DecidableEq

/-- The `supabase_entry` dictionary built inside `save_data_to_supabase`. -/
def mk_supabase_entry (user_email : String) (entry_data : EntryData) : SupabaseRow :=
  { user_email := user_email
    date := entry_data.date
    mood_score := entry_data.mood_score
    note := entry_data.note
    tags := entry_data.tags
    ai_suggestion := entry_data.ai_suggestion
    helpful_hint := entry_data.helpful_hint
    timestamp := entry_data.timestamp }

/-- The row filter used by the duplicate check and the update call:
`.eq("user_email", user_email).eq("date", date)`. -/
def rowMatches (user_email dte : String) (r : SupabaseRow) : Bool :=
  r.user_email == user_email && r.date == dte

/-- Embedding of `save_data_to_supabase(user_email, entry_data)`
(src/simple_mood_app.py lines 75-103; `DataManager.save_entry`, lines
1498-1527, performs the identical check-then-update-or-insert sequence).
The Supabase table is threaded explicitly: the `select` duplicate check is a
filter, the `update` overwrites every matching row with the new column
values, and the `insert` appends. -/
def save_data_to_supabase (table : List SupabaseRow) (user_email : String)
    (entry_data : EntryData) : List SupabaseRow :=
  let supabase_entry := mk_supabase_entry user_email entry_data
  let existing := table.filter (rowMatches user_email supabase_entry.date)
  if existing ≠ [] then
    table.map fun r =>
      if rowMatches user_email supabase_entry.date r then supabase_entry else r
  else
    table ++ [supabase_entry]

/-- Number of rows of the table holding the given (user_email, date) key. -/
def countKey (table : List SupabaseRow) (user_email dte : String) : Nat :=
  (table.filter (rowMatches user_email dte)).length

/-- A mood entry as loaded from Supabase (`load_user_data`).  The calendar
`date` is modelled as an integer day number (days since an arbitrary epoch),
so Python's `timedelta(days=1)` subtraction is subtraction of 1. -/
structure LoadedEntry where
  date : Int
  mood_score : Int
  note : String
  tags : String
  ai_suggestion : String
  helpful_hint : String
  timestamp : String
  deriving DecidableEq

/-- The statistics dictionary returned by `DataManager.calculate_stats`.
Python float averages are modelled as exact rationals. -/
structure MoodStats where
  streak : Nat
  total_checkins : Nat
  avg_mood : Rat
  recent_avg : Rat
  deriving DecidableEq

/-- The `while current_date in dates` loop of `DataManager.calculate_stats`
(src/simple_mood_app.py lines 1575-1579; the same loop appears inline in the
first revision's trends tab, lines 902-907).  The loop is embedded with
explicit fuel; `calculate_stats` supplies enough fuel for the loop to reach
its exit condition, since a run of consecutive days present in `dates` has
length at most `dates.length`. -/
def streak_loop (dates : List Int) : Int → Nat → Nat
  | _, 0 => 0
  | current_date, fuel + 1 =>
      if dates.contains current_date then
        streak_loop dates (current_date - 1) fuel + 1
      else 0

/-- Embedding of `DataManager.calculate_stats(data)` (src/simple_mood_app.py
lines 1567-1591).  `date.today()` is the explicit parameter `today`;
Python's `sorted` is an ascending stable sort. -/
def calculate_stats (data : List LoadedEntry) (today : Int) : MoodStats :=
  if data = [] then ⟨0, 0, 0, 0⟩
  else
    let dates := List.insertionSort (· ≤ ·) (data.map (·.date))
    let streak := streak_loop dates today (dates.length + 1)
    let total_checkins := data.length
    let avg_mood : Rat := ((data.map (·.mood_score)).sum : Rat) / (total_checkins : Rat)
    let recent_avg : Rat :=
      (((data.drop (data.length - 7)).map (·.mood_score)).sum : Rat) /
        ((min total_checkins 7 : Nat) : Rat)
    ⟨streak, total_checkins, avg_mood, recent_avg⟩

/-- The concatenation of the two keyword lists scanned by
`get_helpful_hint`, in the order the source scans them. -/
def emotion_keyword_table : List String := anxiety_keywords ++ low_energy_keywords

/-- Spec-side definition, following the specification's words for
`select_hint` step 2: scan the fixed emotion-keyword table in table order
against the lowercased note and extract the first matching entry, or none.
Used to compare the specified keyword lookup with the source's behavior. -/
def spec_first_keyword_match (note_text : String) : Option String :=
  emotion_keyword_table.find? (fun word => strContains (strToLower note_text) word)

/-- C2: for every integer score in [0,10], `get_mood_info` assigns exactly one
of the five buckets, and the buckets are the contiguous inclusive ranges
[0-2] Very Low, [3-4] Low, [5-6] Neutral, [7-8] Good, [9-10] Great — a
partition of the whole domain with no gaps or overlaps; in particular the
boundary pairs 2/3, 4/5, 6/7 and 8/9 land in different buckets as listed. -/
theorem classify_partitions_domain (s : Int) (theme_primary : String)
    (h0 : 0 ≤ s) (h10 : s ≤ 10) :
    ((get_mood_info s theme_primary).2.1 = "Very Low" ↔ 0 ≤ s ∧ s ≤ 2) ∧
    ((get_mood_info s theme_primary).2.1 = "Low" ↔ 3 ≤ s ∧ s ≤ 4) ∧
    ((get_mood_info s theme_primary).2.1 = "Neutral" ↔ 5 ≤ s ∧ s ≤ 6) ∧
    ((get_mood_info s theme_primary).2.1 = "Good" ↔ 7 ≤ s ∧ s ≤ 8) ∧
    ((get_mood_info s theme_primary).2.1 = "Great" ↔ 9 ≤ s ∧ s ≤ 10) := by
  interval_cases s <;> simp [get_mood_info]

/-- Witness for C2 at the boundary scores 2 and 3. -/
theorem classify_partitions_domain_witness :
    (get_mood_info 2 "#3b82f6").2.1 = "Very Low" ∧
    (get_mood_info 3 "#3b82f6").2.1 = "Low" :=
  ⟨((classify_partitions_domain 2 "#3b82f6" (by decide) (by decide)).1).mpr (by decide),
   ((classify_partitions_domain 3 "#3b82f6" (by decide) (by decide)).2.1).mpr (by decide)⟩

/-- C3 counterexample: `get_mood_info` does not fail on out-of-range scores;
it returns an ordinary bucket for both -1 and 11, so no `InvalidScore`
condition exists. -/
theorem classify_out_of_range_returns_bucket :
    (get_mood_info (-1) "#3b82f6").2.1 = "Very Low" ∧
    (get_mood_info 11 "#3b82f6").2.1 = "Great" := by decide

/-- C3 (amended): `get_mood_info` accepts every integer; scores below the
domain fall into the Very Low bucket via the `<= 2` branch and scores above
the domain into the Great bucket via the final else — there is no
`InvalidScore` failure and no clamping step (range enforcement happens only
at the UI slider). -/
theorem classify_total_on_out_of_range (s : Int) (theme_primary : String) :
    (s < 0 → (get_mood_info s theme_primary).2.1 = "Very Low") ∧
    (10 < s → (get_mood_info s theme_primary).2.1 = "Great") := by
  constructor
  · intro h
    have h2 : s ≤ 2 := by omega
    simp [get_mood_info, h2]
  · intro h
    have h2 : ¬s ≤ 2 := by omega
    have h4 : ¬s ≤ 4 := by omega
    have h6 : ¬s ≤ 6 := by omega
    have h8 : ¬s ≤ 8 := by omega
    simp [get_mood_info, h2, h4, h6, h8]

/-- Witness for the amended C3 at scores -1 and 11. -/
theorem classify_total_on_out_of_range_witness :
    (get_mood_info (-1) "#60a5fa").2.1 = "Very Low" ∧
    (get_mood_info 11 "#60a5fa").2.1 = "Great" :=
  ⟨(classify_total_on_out_of_range (-1) "#60a5fa").1 (by decide),
   (classify_total_on_out_of_range 11 "#60a5fa").2 (by decide)⟩

/-- C5: `get_helpful_hint` is deterministic — identical (score, note) inputs
produce identical text, as it is a pure function of its two arguments with
no randomness — and its output is never empty. -/
theorem select_hint_deterministic_and_nonempty (s₁ s₂ : Int) (n₁ n₂ : String)
    (hs : s₁ = s₂) (hn : n₁ = n₂) :
    get_helpful_hint s₁ n₁ = get_helpful_hint s₂ n₂ ∧ get_helpful_hint s₁ n₁ ≠ "" := by
  subst hs; subst hn
  refine ⟨rfl, ?_⟩
  simp only [get_helpful_hint]
  split_ifs <;> decide

/-- Witness for C5 at score 7 with note "hello". -/
theorem select_hint_deterministic_and_nonempty_witness :
    get_helpful_hint 7 "hello" = get_helpful_hint 7 "hello" ∧
    get_helpful_hint 7 "hello" ≠ "" :=
  select_hint_deterministic_and_nonempty 7 7 "hello" "hello" rfl rfl

/-- C9: whenever the lowercased note contains one of the words "overwhelmed",
"anxious", "panic" or "fear", `get_helpful_hint` returns the grounding
message — the lowest tier, otherwise reserved for scores at most 3 —
regardless of the score. -/
theorem anxiety_keywords_override_score (s : Int) (note_text : String)
    (h : (anxiety_keywords.any fun word =>
        strContains (strToLower note_text) word) = true) :
    get_helpful_hint s note_text = grounding_message := by
  simp [get_helpful_hint, h]

/-- Witness for C9: a score-10 check-in whose note mentions "anxious" receives
the low-mood grounding message. -/
theorem anxiety_keywords_override_score_witness :
    get_helpful_hint 10 "feeling anxious today" = grounding_message :=
  anxiety_keywords_override_score 10 "feeling anxious today" (by decide)

/-- C1 counterexample: the note "I want to end it all" does not produce one
fixed score-independent message — scores 10 and 0 yield different texts, so
no crisis short-circuit overriding the score exists. -/
theorem crisis_note_output_depends_on_score :
    get_helpful_hint 10 "I want to end it all" ≠
      get_helpful_hint 0 "I want to end it all" := by decide

/-- C1 (amended): `get_helpful_hint` has no crisis-keyword branch and no
emergency-resources message; the note "I want to end it all" matches neither
keyword list, so the output is the tier selected by the score alone — the
same output as for the empty note — at every score. -/
theorem no_crisis_shortcircuit_exists (s : Int) :
    get_helpful_hint s "I want to end it all" = get_helpful_hint s "" := by
  have h1 : (anxiety_keywords.any fun word =>
      strContains (strToLower "I want to end it all") word) = false := by decide
  have h2 : (low_energy_keywords.any fun word =>
      strContains (strToLower "I want to end it all") word) = false := by decide
  have h3 : (anxiety_keywords.any fun word =>
      strContains (strToLower "") word) = false := by decide
  have h4 : (low_energy_keywords.any fun word =>
      strContains (strToLower "") word) = false := by decide
  simp [get_helpful_hint, h1, h2, h3, h4]

/-- C8 counterexample: the hint text carries no bucket-specific intro or
suffix — scores 1 (bucket Very Low) and 3 (bucket Low) receive the identical
full text, so the claimed composed form (bucket-specific intro + quoted
message + attribution + citation + bucket-specific suffix) does not exist. -/
theorem very_low_and_low_share_hint_text :
    (get_mood_info 1 "#3b82f6").2.1 = "Very Low" ∧
    (get_mood_info 3 "#3b82f6").2.1 = "Low" ∧
    get_helpful_hint 1 "" = get_helpful_hint 3 "" := by decide

/-- C8 (amended): score 1 with the empty note classifies as Very Low, and the
hint is the complete static grounding message — one fixed string that begins
"When everything feels heavy" and ends "step outside.", with no
intro/quotation/attribution/suffix composition. -/
theorem score_one_empty_note_hint :
    (get_mood_info 1 "#3b82f6").2.1 = "Very Low" ∧
    get_helpful_hint 1 "" = grounding_message ∧
    "When everything feels heavy".data.isPrefixOf grounding_message.data = true ∧
    "step outside.".data.isSuffixOf grounding_message.data = true := by decide

/-- C4 counterexample: on a provider failure the AI column shows a diagnostic
"AI temporarily unavailable" string, not the static per-tier fallback text
for the score's bucket. -/
theorem enrichment_failure_yields_unavailable_not_fallback :
    get_ai_suggestion 1 "" "sk-test" (.failure "timeout") =
      "AI temporarily unavailable: timeout..." ∧
    get_ai_suggestion 1 "" "sk-test" (.failure "timeout") ≠ get_helpful_hint 1 "" := by
  decide

/-- C4 (amended): provider failures never propagate — with a configured API
key, every raised exception or timeout makes `get_ai_suggestion` return the
diagnostic unavailability string built from the exception text, and the
static helpful hint shown alongside is computed without consulting the
provider, so it is unaffected by any provider outcome. -/
theorem enrichment_failure_never_propagates (mood : Int) (note api_key msg : String)
    (hkey : api_key ≠ "") (provider : ProviderResult) :
    (checkin_messages mood note api_key (.failure msg)).2 =
      "AI temporarily unavailable: " ++ String.mk (msg.data.take 50) ++ "..." ∧
    (checkin_messages mood note api_key provider).1 = get_helpful_hint mood note := by
  constructor
  · simp [checkin_messages, get_ai_suggestion, hkey]
  · rfl

/-- Witness for the amended C4 at a concrete timed-out request. -/
theorem enrichment_failure_never_propagates_witness :
    (checkin_messages 8 "good day" "sk-test" (.failure "HTTPSConnectionPool timeout")).2 =
      "AI temporarily unavailable: " ++
        String.mk ("HTTPSConnectionPool timeout".data.take 50) ++ "..." ∧
    (checkin_messages 8 "good day" "sk-test"
        (.failure "HTTPSConnectionPool timeout")).1 = get_helpful_hint 8 "good day" :=
  enrichment_failure_never_propagates 8 "good day" "sk-test" "HTTPSConnectionPool timeout"
    (by decide) (.failure "HTTPSConnectionPool timeout")

/-- Scanning an appended list with `find?` inspects the left list first. -/
theorem find?_append_eq {α : Type} (p : α → Bool) (l₁ l₂ : List α) :
    (l₁ ++ l₂).find? p = match l₁.find? p with
      | some a => some a
      | none => l₂.find? p := by
  induction l₁ with
  | nil => rfl
  | cons a t ih => cases h : p a <;> simp [List.find?_cons, h, ih]

/-- If no table entry matches the note, neither keyword list matches. -/
theorem no_keyword_match_of_table_none (n : String)
    (h : spec_first_keyword_match n = none) :
    (anxiety_keywords.any fun word => strContains (strToLower n) word) = false ∧
    (low_energy_keywords.any fun word => strContains (strToLower n) word) = false := by
  unfold spec_first_keyword_match emotion_keyword_table at h
  rw [List.find?_eq_none] at h
  constructor <;> rw [List.any_eq_false] <;> intro w hw
  · exact h w (List.mem_append_left _ hw)
  · exact h w (List.mem_append_right _ hw)

/-- If the first matching table entry is an anxiety keyword, the anxiety list
matches. -/
theorem anxiety_match_of_table_first (n : String) (w : String)
    (h : spec_first_keyword_match n = some w) (hw : w ∈ anxiety_keywords) :
    (anxiety_keywords.any fun word => strContains (strToLower n) word) = true := by
  have hp : strContains (strToLower n) w = true := List.find?_some h
  exact List.any_eq_true.mpr ⟨w, hw, hp⟩

/-- If the first matching table entry is a low-energy keyword, the anxiety
list does not match and the low-energy list does. -/
theorem low_energy_match_of_table_first (n : String) (w : String)
    (h : spec_first_keyword_match n = some w) (hw : w ∈ low_energy_keywords) :
    (anxiety_keywords.any fun word => strContains (strToLower n) word) = false ∧
    (low_energy_keywords.any fun word => strContains (strToLower n) word) = true := by
  have hp : strContains (strToLower n) w = true := List.find?_some h
  refine ⟨?_, List.any_eq_true.mpr ⟨w, hw, hp⟩⟩
  by_contra hfalse
  have hany : (anxiety_keywords.any fun word => strContains (strToLower n) word) = true := by
    revert hfalse
    cases anxiety_keywords.any fun word => strContains (strToLower n) word <;> simp
  obtain ⟨v, hv, hpv⟩ := List.any_eq_true.mp hany
  have hfind : (anxiety_keywords.find? fun word => strContains (strToLower n) word).isSome := by
    rw [List.find?_isSome]
    exact ⟨v, hv, hpv⟩
  obtain ⟨u, hu⟩ := Option.isSome_iff_exists.mp hfind
  have htab : spec_first_keyword_match n = some u := by
    unfold spec_first_keyword_match emotion_keyword_table
    rw [find?_append_eq, hu]
  have huw : u = w := by
    rw [htab] at h
    exact Option.some.inj h
  have humem : u ∈ anxiety_keywords := List.mem_of_find?_eq_some hu
  have hdisj : ∀ x ∈ low_energy_keywords, x ∉ anxiety_keywords := by decide
  exact hdisj w hw (huw ▸ humem)

/-- The hint's dependence on the note factors through the first matching
entry of the emotion-keyword table. -/
theorem hint_factors_through_first_match (s : Int) (n₁ n₂ : String)
    (h : spec_first_keyword_match n₁ = spec_first_keyword_match n₂) :
    get_helpful_hint s n₁ = get_helpful_hint s n₂ := by
  cases hm : spec_first_keyword_match n₁ with
  | none =>
      have hm₂ : spec_first_keyword_match n₂ = none := by rw [← h, hm]
      obtain ⟨ha₁, hb₁⟩ := no_keyword_match_of_table_none n₁ hm
      obtain ⟨ha₂, hb₂⟩ := no_keyword_match_of_table_none n₂ hm₂
      simp [get_helpful_hint, ha₁, hb₁, ha₂, hb₂]
  | some w =>
      have hm₂ : spec_first_keyword_match n₂ = some w := by rw [← h, hm]
      have hwtab : w ∈ emotion_keyword_table := by
        unfold spec_first_keyword_match at hm
        exact List.mem_of_find?_eq_some hm
      rcases List.mem_append.mp hwtab with hw | hw
      · have h₁ := anxiety_match_of_table_first n₁ w hm hw
        have h₂ := anxiety_match_of_table_first n₂ w hm₂ hw
        simp [get_helpful_hint, h₁, h₂]
      · obtain ⟨ha₁, hb₁⟩ := low_energy_match_of_table_first n₁ w hm hw
        obtain ⟨ha₂, hb₂⟩ := low_energy_match_of_table_first n₂ w hm₂ hw
        simp [get_helpful_hint, ha₁, hb₁, ha₂, hb₂]

/-- C6: `get_helpful_hint` extracts at most one contextual keyword from the
note — the first entry of the fixed emotion-keyword table (the two source
keyword lists in scan order) that occurs in the lowercased note.  The output
depends on the note only through that first match (deterministic and
order-sensitive lookup, ties broken by table order), and when no table entry
matches, the note has no effect at all (the output equals the empty-note
output for the same score). -/
theorem note_influence_is_first_table_match (s : Int) (n₁ n₂ : String)
    (h : spec_first_keyword_match n₁ = spec_first_keyword_match n₂) :
    get_helpful_hint s n₁ = get_helpful_hint s n₂ ∧
    (spec_first_keyword_match n₁ = none → get_helpful_hint s n₁ = get_helpful_hint s "") := by
  refine ⟨hint_factors_through_first_match s n₁ n₂ h, fun h0 => ?_⟩
  refine hint_factors_through_first_match s n₁ "" ?_
  rw [h0]
  decide

/-- Witness for C6: two notes whose first table match is "anxious" receive the
same hint at score 7, and a keyword-free note behaves like the empty note. -/
theorem note_influence_is_first_table_match_witness :
    (get_helpful_hint 7 "anxious" = get_helpful_hint 7 "so anxious today" ∧
      (spec_first_keyword_match "anxious" = none →
        get_helpful_hint 7 "anxious" = get_helpful_hint 7 "")) ∧
    (get_helpful_hint 4 "rainy day" = get_helpful_hint 4 "rainy day" ∧
      (spec_first_keyword_match "rainy day" = none →
        get_helpful_hint 4 "rainy day" = get_helpful_hint 4 "")) :=
  ⟨note_influence_is_first_table_match 7 "anxious" "so anxious today" (by decide),
   note_influence_is_first_table_match 4 "rainy day" "rainy day" rfl⟩

/-- Mapping a row-overwrite over a table preserves `countP` for any predicate
the overwrite respects pointwise. -/
theorem countP_map_overwrite (f : SupabaseRow → SupabaseRow) (p : SupabaseRow → Bool)
    (t : List SupabaseRow) (h : ∀ r ∈ t, p (f r) = p r) :
    (t.map f).countP p = t.countP p := by
  induction t with
  | nil => rfl
  | cons a t ih =>
      simp only [List.map_cons, List.countP_cons, h a (List.mem_cons_self a t)]
      rw [ih (fun r hr => h r (List.mem_cons_of_mem a hr))]

/-- The `rowMatches` status of a row is unchanged by the update rewrite of
`save_data_to_supabase`: a row matching the saved key is replaced by the new
row for the same key, and other rows are untouched. -/
theorem rowMatches_overwrite (u' : String) (e : EntryData) (u d : String)
    (r : SupabaseRow) :
    rowMatches u d
        (if rowMatches u' (mk_supabase_entry u' e).date r then mk_supabase_entry u' e else r) =
      rowMatches u d r := by
  by_cases hq : rowMatches u' (mk_supabase_entry u' e).date r = true
  · rw [if_pos hq]
    simp only [rowMatches, mk_supabase_entry, Bool.and_eq_true, beq_iff_eq] at hq ⊢
    obtain ⟨hqu, hqd⟩ := hq
    rw [hqu, hqd]
  · rw [if_neg hq]

/-- One `save_data_to_supabase` call preserves the at-most-one-row-per-key
invariant. -/
theorem countKey_save_le (t : List SupabaseRow) (u' : String) (e : EntryData)
    (hinv : ∀ u d, countKey t u d ≤ 1) (u d : String) :
    countKey (save_data_to_supabase t u' e) u d ≤ 1 := by
  have hcount : ∀ (l : List SupabaseRow) (u₀ d₀ : String),
      countKey l u₀ d₀ = l.countP (rowMatches u₀ d₀) := by
    intro l u₀ d₀
    rw [countKey, List.countP_eq_length_filter]
  unfold save_data_to_supabase
  by_cases hex : t.filter (rowMatches u' (mk_supabase_entry u' e).date) ≠ []
  · rw [if_pos hex]
    rw [hcount, countP_map_overwrite _ _ _ (fun r _ => rowMatches_overwrite u' e u d r)]
    rw [← hcount]
    exact hinv u d
  · rw [if_neg hex]
    rw [hcount, List.countP_append, ← hcount]
    by_cases hkey : rowMatches u d (mk_supabase_entry u' e) = true
    · have hud : u = u' ∧ d = (mk_supabase_entry u' e).date := by
        simp only [rowMatches, mk_supabase_entry, Bool.and_eq_true, beq_iff_eq] at hkey
        exact ⟨hkey.1.symm, hkey.2.symm⟩
      have hzero : countKey t u d = 0 := by
        rw [countKey, hud.1, hud.2]
        rw [not_not] at hex
        simp [hex]
      rw [hzero]
      simp [hkey]
    · have : (List.countP (rowMatches u d) [mk_supabase_entry u' e]) = 0 := by
        simp only [List.countP_cons, List.countP_nil]
        simp [hkey]
      rw [this]
      simpa using hinv u d

/-- Folding any sequence of submissions over a table satisfying the
at-most-one invariant keeps the invariant. -/
theorem countKey_foldl_le (ops : List (String × EntryData)) :
    ∀ t : List SupabaseRow, (∀ u d, countKey t u d ≤ 1) →
      ∀ u d, countKey (ops.foldl (fun tbl p => save_data_to_supabase tbl p.1 p.2) t) u d ≤ 1 := by
  induction ops with
  | nil => intro t h; exact h
  | cons op ops ih =>
      intro t h
      exact ih _ (fun u d => countKey_save_le t op.1 op.2 h u d)

/-- Submitting twice for the same key, starting with no row for that key,
leaves exactly the single row carrying the second submission's values. -/
theorem save_twice_same_key (t : List SupabaseRow) (u : String) (e₁ e₂ : EntryData)
    (h0 : countKey t u e₁.date = 0) (hd : e₁.date = e₂.date) :
    (save_data_to_supabase (save_data_to_supabase t u e₁) u e₂).filter
      (rowMatches u e₂.date) = [mk_supabase_entry u e₂] := by
  have hdate₁ : (mk_supabase_entry u e₁).date = e₁.date := rfl
  have hdate₂ : (mk_supabase_entry u e₂).date = e₂.date := rfl
  have hnil : t.filter (rowMatches u e₁.date) = [] := by
    have := h0
    rw [countKey] at this
    exact List.length_eq_zero.mp this
  have hnone : ∀ r ∈ t, ¬rowMatches u e₁.date r = true :=
    List.filter_eq_nil_iff.mp hnil
  have hsave₁ : save_data_to_supabase t u e₁ = t ++ [mk_supabase_entry u e₁] := by
    simp only [save_data_to_supabase]
    rw [hdate₁, if_neg (by simp [hnil])]
  have hmatch₁ : rowMatches u e₂.date (mk_supabase_entry u e₁) = true := by
    simp [rowMatches, mk_supabase_entry, ← hd]
  have hmatch₂ : rowMatches u e₂.date (mk_supabase_entry u e₂) = true := by
    simp [rowMatches, mk_supabase_entry]
  have hex₂ : (t ++ [mk_supabase_entry u e₁]).filter
      (rowMatches u (mk_supabase_entry u e₂).date) ≠ [] := by
    rw [hdate₂, List.filter_append]
    simp [hmatch₁]
  have hsave₂ : save_data_to_supabase (t ++ [mk_supabase_entry u e₁]) u e₂ =
      (t ++ [mk_supabase_entry u e₁]).map fun r =>
        if rowMatches u (mk_supabase_entry u e₂).date r then mk_supabase_entry u e₂ else r := by
    simp only [save_data_to_supabase]
    rw [if_pos hex₂]
  rw [hsave₁, hsave₂, hdate₂, List.map_append, List.filter_append]
  have hleft : (t.map fun r =>
      if rowMatches u e₂.date r then mk_supabase_entry u e₂ else r).filter
        (rowMatches u e₂.date) = [] := by
    rw [List.filter_eq_nil_iff]
    intro a ha
    obtain ⟨r, hr, rfl⟩ := List.mem_map.mp ha
    have hnr : ¬rowMatches u e₂.date r = true := by
      rw [← hd]
      exact hnone r hr
    rw [if_neg hnr]
    exact hnr
  rw [hleft]
  simp [hmatch₁, hmatch₂]

/-- C7: starting from an empty store, any sequence of submissions leaves at
most one row per (user, date) key; and two submissions for the same user and
date, starting with no row for that key, leave exactly one row for it,
carrying the second submission's values (upsert overwrite, not append). -/
theorem upsert_at_most_one_entry_per_user_date :
    (∀ (ops : List (String × EntryData)) (u d : String),
      countKey (ops.foldl (fun tbl p => save_data_to_supabase tbl p.1 p.2) []) u d ≤ 1) ∧
    (∀ (t : List SupabaseRow) (u : String) (e₁ e₂ : EntryData),
      countKey t u e₁.date = 0 → e₁.date = e₂.date →
      (save_data_to_supabase (save_data_to_supabase t u e₁) u e₂).filter
        (rowMatches u e₂.date) = [mk_supabase_entry u e₂]) :=
  ⟨fun ops u d => countKey_foldl_le ops [] (fun _ _ => by simp [countKey]) u d,
   save_twice_same_key⟩

/-- Witness for C7: two same-day submissions for one user, into an empty
store, leave exactly the second submission's row. -/
theorem upsert_at_most_one_entry_per_user_date_witness :
    (save_data_to_supabase
        (save_data_to_supabase [] "alice@example.com"
          ⟨"2026-10-11", 4, "rough morning", "work", "", "", "t1"⟩)
        "alice@example.com"
        ⟨"2026-10-11", 7, "better evening", "friends", "", "", "t2"⟩).filter
      (rowMatches "alice@example.com" "2026-10-11") =
      [mk_supabase_entry "alice@example.com"
        ⟨"2026-10-11", 7, "better evening", "friends", "", "", "t2"⟩] :=
  upsert_at_most_one_entry_per_user_date.2 [] "alice@example.com"
    ⟨"2026-10-11", 4, "rough morning", "work", "", "", "t1"⟩
    ⟨"2026-10-11", 7, "better evening", "friends", "", "", "t2"⟩
    (by decide) rfl

/-- Every day counted by the streak loop is present among the dates. -/
theorem streak_loop_mem (dates : List Int) :
    ∀ (fuel : Nat) (current : Int) (k : Nat), k < streak_loop dates current fuel →
      (current - k) ∈ dates := by
  intro fuel
  induction fuel with
  | zero =>
      intro current k hk
      simp [streak_loop] at hk
  | succ n ih =>
      intro current k hk
      rw [streak_loop] at hk
      by_cases hc : dates.contains current
      · rw [if_pos hc] at hk
        cases k with
        | zero =>
            simpa using hc
        | succ k' =>
            have hmem := ih (current - 1) k' (by omega)
            have harith : current - ((k' : Int) + 1) = current - 1 - k' := by ring
            simpa [harith] using hmem
      · rw [if_neg hc] at hk
        omega

/-- When the streak loop halts short of its fuel, the day just past the
streak is absent from the dates. -/
theorem streak_loop_stops_at_absent_day (dates : List Int) :
    ∀ (fuel : Nat) (current : Int), streak_loop dates current fuel < fuel →
      (current - (streak_loop dates current fuel : Int)) ∉ dates := by
  intro fuel
  induction fuel with
  | zero =>
      intro current h
      omega
  | succ n ih =>
      intro current h
      rw [streak_loop] at h ⊢
      by_cases hc : dates.contains current
      · rw [if_pos hc] at h ⊢
        have hlt : streak_loop dates (current - 1) n < n := by omega
        have hstop := ih (current - 1) hlt
        have harith : current - ((streak_loop dates (current - 1) n : Int) + 1) =
            current - 1 - (streak_loop dates (current - 1) n : Int) := by ring
        simpa [harith] using hstop
      · rw [if_neg hc] at h ⊢
        simp only [Nat.cast_zero, sub_zero]
        intro hmem
        exact hc (by simpa using hmem)

/-- The streak can never exceed the number of stored dates, since the counted
days are pairwise distinct members of the date list. -/
theorem streak_loop_le_length (dates : List Int) (current : Int) (fuel : Nat) :
    streak_loop dates current fuel ≤ dates.length := by
  have hmem : ∀ k < streak_loop dates current fuel, (current - (k : Int)) ∈ dates :=
    fun k hk => streak_loop_mem dates fuel current k hk
  have hinj : Function.Injective fun k : Nat => current - (k : Int) := by
    intro a b hab
    simp only at hab
    omega
  have hnodup : ((List.range (streak_loop dates current fuel)).map
      fun k : Nat => current - (k : Int)).Nodup :=
    List.Nodup.map hinj (List.nodup_range _)
  have hsub : ((List.range (streak_loop dates current fuel)).map
      fun k : Nat => current - (k : Int)) ⊆ dates := by
    intro x hx
    obtain ⟨k, hk, rfl⟩ := List.mem_map.mp hx
    exact hmem k (List.mem_range.mp hk)
  have hle := (hnodup.subperm hsub).length_le
  simpa using hle

/-- C10: for every non-empty entry list, the streak of `calculate_stats`
counts exactly the consecutive calendar days, starting at today and stepping
backwards one day at a time, that appear among the entries' dates: every
counted day appears, the first uncounted day is absent, and in particular the
streak is 0 whenever today itself has no entry. -/
theorem calculate_stats_streak_counts_consecutive_days
    (data : List LoadedEntry) (today : Int) (hne : data ≠ []) :
    (∀ k : Nat, k < (calculate_stats data today).streak →
      (today - k) ∈ data.map (·.date)) ∧
    (today - ((calculate_stats data today).streak : Int)) ∉ data.map (·.date) ∧
    (today ∉ data.map (·.date) → (calculate_stats data today).streak = 0) := by
  have hstreak : (calculate_stats data today).streak =
      streak_loop (List.insertionSort (· ≤ ·) (data.map (·.date))) today
        ((List.insertionSort (· ≤ ·) (data.map (·.date))).length + 1) := by
    rw [calculate_stats, if_neg hne]
  have hmemiff : ∀ x : Int,
      x ∈ List.insertionSort (· ≤ ·) (data.map (·.date)) ↔ x ∈ data.map (·.date) :=
    fun x => (List.perm_insertionSort _ _).mem_iff
  rw [hstreak]
  refine ⟨?_, ?_, ?_⟩
  · intro k hk
    exact (hmemiff _).mp (streak_loop_mem _ _ today k hk)
  · have hlt : streak_loop (List.insertionSort (· ≤ ·) (data.map (·.date))) today
        ((List.insertionSort (· ≤ ·) (data.map (·.date))).length + 1) <
        (List.insertionSort (· ≤ ·) (data.map (·.date))).length + 1 := by
      have := streak_loop_le_length (List.insertionSort (· ≤ ·) (data.map (·.date))) today
        ((List.insertionSort (· ≤ ·) (data.map (·.date))).length + 1)
      omega
    intro hmem
    exact streak_loop_stops_at_absent_day _ _ today hlt ((hmemiff _).mpr hmem)
  · intro htoday
    rw [streak_loop]
    rw [if_neg]
    intro hc
    exact htoday ((hmemiff _).mp (by simpa using hc))

/-- Witness for C10 on a one-entry store whose entry is dated today. -/
theorem calculate_stats_streak_counts_consecutive_days_witness :
    (0 - ((calculate_stats [⟨0, 5, "", "", "", "", ""⟩] 0).streak : Int)) ∉
      List.map (·.date) [(⟨0, 5, "", "", "", "", ""⟩ : LoadedEntry)] :=
  (calculate_stats_streak_counts_consecutive_days
    [⟨0, 5, "", "", "", "", ""⟩] 0 (by simp)).2.1
